import Mathlib

/-!
# Verification of the webhook ingestion subsystem

Shallow embedding of the webhook storage, the DoorDash and Uber webhook
processors, and the DoorDash signature-verification utility of the
repository (src/webhooks/WebhookStorage.ts, src/webhooks/DoorDashWebhookProcessor.ts,
the Uber webhook processor, src/utils/doorDashAuth.ts, src/webhooks/types.ts).

JavaScript dynamic values are modelled by `JSVal`; property access on
`null`/`undefined` throws, modelled with `Except`.  Clock readings
(`Date.now()`, `new Date()`) are passed in as explicit parameters; the
HMAC-SHA256 primitive and JSON serialization are uninterpreted function
parameters supplied through an environment record.
-/

set_option maxRecDepth 10000
set_option linter.unusedVariables false
set_option linter.unnecessarySeqFocus false

namespace WebhookRepo

/-- A JavaScript runtime value, as far as the webhook code inspects one.
Objects are encoded as a chain of `objCons` cells ending in `objNil`
(first binding wins on lookup, as for a JS object literal read back). -/
inductive JSVal where
  | undefined : JSVal
  | null : JSVal
  | bool (b : Bool) : JSVal
  | num (n : Int) : JSVal
  | str (s : String) : JSVal
  | objNil : JSVal
  | objCons (key : String) (value : JSVal) (rest : JSVal) : JSVal
deriving DecidableEq, Repr

/-- Build an object value from a list of bindings. -/
def JSVal.mkObj : List (String × JSVal) → JSVal
  | [] => .objNil
  | (k, v) :: rest => .objCons k v (mkObj rest)

/-- First binding for `key` in an object chain, if any. -/
def JSVal.lookupField : JSVal → String → Option JSVal
  | .objCons k v rest, key => if k = key then some v else rest.lookupField key
  | _, _ => none

/-- JavaScript truthiness: `undefined`, `null`, `false`, `0` and `""` are
falsy, everything else (including the empty object) is truthy. -/
def JSVal.truthy : JSVal → Bool
  | .undefined => false
  | .null => false
  | .bool b => b
  | .num n => n != 0
  | .str s => s ≠ ""
  | .objNil => true
  | .objCons _ _ _ => true

/-- Property access `v.k`: throws a TypeError on `null`/`undefined`,
returns the field (or `undefined`) on objects, and `undefined` on other
primitives (prototype properties are not consulted by the webhook code). -/
def JSVal.getProp : JSVal → String → Except String JSVal
  | .undefined, k => .error ("Cannot read properties of undefined (reading " ++ k ++ ")")
  | .null, k => .error ("Cannot read properties of null (reading " ++ k ++ ")")
  | v, k =>
    .ok (match v.lookupField k with
      | some x => x
      | none => .undefined)

/-- Optional chaining `v?.k`: `undefined` when `v` is nullish. -/
def JSVal.getPropOpt (v : JSVal) (k : String) : JSVal :=
  match v with
  | .undefined => .undefined
  | .null => .undefined
  | v =>
    match v.lookupField k with
    | some x => x
    | none => .undefined

/-- `a || b` returns `a` when truthy, else `b`. -/
def jsOr (a b : JSVal) : JSVal := if a.truthy then a else b

/-- `a && b` returns `a` when falsy, else `b`. -/
def jsAnd (a b : JSVal) : JSVal := if a.truthy then b else a

/-- Template-literal coercion of a value to a string. -/
def JSVal.display : JSVal → String
  | .undefined => "undefined"
  | .null => "null"
  | .bool b => if b then "true" else "false"
  | .num n => toString n
  | .str s => s
  | .objNil => "[object Object]"
  | .objCons _ _ _ => "[object Object]"

/-- Split a character list on a single separator character
(`String.prototype.split` with a one-character separator). -/
def splitOnChar (sep : Char) : List Char → List (List Char)
  | [] => [[]]
  | c :: rest =>
    let r := splitOnChar sep rest
    if c = sep then [] :: r
    else
      match r with
      | [] => [[c]]
      | h :: t => (c :: h) :: t

/-- `sub` is a prefix of `hay`. -/
def charListHasStart : List Char → List Char → Bool
  | _, [] => true
  | [], _ :: _ => false
  | a :: as, b :: bs => a = b && charListHasStart as bs

/-- `sub` occurs somewhere inside `hay`. -/
def charListHasSub (hay sub : List Char) : Bool :=
  if charListHasStart hay sub then true
  else
    match hay with
    | [] => false
    | _ :: rest => charListHasSub rest sub

/-- `s.includes(sub)` for strings. -/
def includesJS (s sub : String) : Bool :=
  charListHasSub s.toList sub.toList

/-- `s.toLowerCase()` for strings. -/
def toLowerJS (s : String) : String :=
  String.mk (s.toList.map Char.toLower)

/-- `parseInt(s, 10)`: leading whitespace skipped, an optional sign, then
a maximal run of leading decimal digits; `none` stands for `NaN` (no
leading digit). -/
def parseIntJS (s : String) : Option Int :=
  let chars := s.toList.dropWhile Char.isWhitespace
  let (sign, rest) :=
    match chars with
    | '-' :: cs => ((-1 : Int), cs)
    | '+' :: cs => ((1 : Int), cs)
    | cs => ((1 : Int), cs)
  let digits := rest.takeWhile (·.isDigit)
  if digits.isEmpty then none
  else some (sign * digits.foldl (fun acc c => acc * 10 + (c.toNat - '0'.toNat : Int)) 0)

/-- A `Date` value: constructed from a raw value (`new Date(v)`), from a
value scaled to milliseconds (`new Date(v * 1000)`), or from the current
clock (`new Date()` at time `t`). -/
inductive JSDate where
  | fromVal (v : JSVal) : JSDate
  | fromMillisVal (v : JSVal) : JSDate
  | now (t : Nat) : JSDate
deriving DecidableEq, Repr

/-- Webhook provider enum (src/webhooks/types.ts `WebhookProvider`). -/
inductive WebhookProvider where
  | DOORDASH | UBER | UNKNOWN
deriving DecidableEq, Repr

/-- Standardized event types (src/webhooks/types.ts `WebhookEventType`). -/
inductive WebhookEventType where
  | DELIVERY_CREATED
  | DELIVERY_PICKUP
  | DELIVERY_IN_PROGRESS
  | DELIVERY_COMPLETED
  | DELIVERY_FAILED
  | DELIVERY_CANCELLED
  | DELIVERY_RETURNED
  | DELIVERY_STATUS_CHANGED
  | COURIER_LOCATION_UPDATED
  | UNKNOWN
deriving DecidableEq, Repr

/-- The string value of each `WebhookEventType` enum member. -/
def WebhookEventType.toStr : WebhookEventType → String
  | .DELIVERY_CREATED => "delivery.created"
  | .DELIVERY_PICKUP => "delivery.pickup"
  | .DELIVERY_IN_PROGRESS => "delivery.in_progress"
  | .DELIVERY_COMPLETED => "delivery.completed"
  | .DELIVERY_FAILED => "delivery.failed"
  | .DELIVERY_CANCELLED => "delivery.cancelled"
  | .DELIVERY_RETURNED => "delivery.returned"
  | .DELIVERY_STATUS_CHANGED => "delivery.status_changed"
  | .COURIER_LOCATION_UPDATED => "courier.location.updated"
  | .UNKNOWN => "unknown"

/-- Standardized delivery statuses (src/webhooks/types.ts `WebhookDeliveryStatus`). -/
inductive WebhookDeliveryStatus where
  | PENDING | ASSIGNED | PICKUP | IN_TRANSIT | DELIVERED
  | FAILED | CANCELLED | RETURNED | UNKNOWN
deriving DecidableEq, Repr

/-- Record status (the `'pending' | 'processed' | 'failed'` union). -/
inductive RecordStatus where
  | pending | processed | failed
deriving DecidableEq, Repr

/-- A normalized webhook event, the base `WebhookEvent` and the
`DeliveryStatusWebhookEvent` extension merged into one structure with
optional fields (`none` = field absent / `undefined`). -/
structure WebhookEvent where
  id : JSVal
  provider : WebhookProvider
  eventType : WebhookEventType
  timestamp : JSDate
  deliveryId : JSVal
  externalDeliveryId : Option JSVal := none
  status : Option WebhookDeliveryStatus := none
  statusDetails : Option JSVal := none
  location : Option (Option (JSVal × JSVal)) := none
  estimatedDeliveryTime : Option JSDate := none
  trackingUrl : Option JSVal := none
  rawData : JSVal
deriving DecidableEq, Repr

/-- `WebhookProcessingResult` (errors carried as their message string). -/
structure WebhookProcessingResult where
  success : Bool
  message : String
  event : Option WebhookEvent := none
  error : Option String := none
deriving DecidableEq, Repr

/-- `WebhookStorageRecord` (src/webhooks/types.ts). Headers are a list of
header-name/value pairs; `none` = the optional argument was not supplied. -/
structure WebhookStorageRecord where
  id : String
  provider : WebhookProvider
  receivedAt : JSDate
  processedAt : Option JSDate := none
  processingAttempts : Nat
  lastProcessingAttempt : Option JSDate := none
  status : RecordStatus
  rawData : JSVal
  headers : Option (List (String × String)) := none
  processingResult : Option WebhookProcessingResult := none
deriving DecidableEq, Repr

/-- The state of a `WebhookStorage` instance: the in-memory `webhooks`
array and the file store (one JSON file per record id under the storage
directory), modelled as an association list keyed by record id. -/
structure WebhookStorage where
  webhooks : List WebhookStorageRecord
  files : List (String × WebhookStorageRecord)
deriving DecidableEq, Repr

namespace WebhookStorage

/-- A freshly initialized storage over an empty data directory. -/
def empty : WebhookStorage := { webhooks := [], files := [] }

/-- Overwrite-or-create the file keyed by `id` (fs.promises.writeFile). -/
def writeFile (files : List (String × WebhookStorageRecord)) (id : String)
    (w : WebhookStorageRecord) : List (String × WebhookStorageRecord) :=
  match files with
  | [] => [(id, w)]
  | (k, v) :: rest => if k = id then (id, w) :: rest else (k, v) :: writeFile rest id w

/-- `saveWebhook`: pushes the record onto the in-memory array and writes
its file (the happy path of the try/catch around the write). -/
def saveWebhook (s : WebhookStorage) (w : WebhookStorageRecord) : WebhookStorage :=
  { webhooks := s.webhooks ++ [w], files := writeFile s.files w.id w }

/-- `getWebhook(id)`: first record with the id. -/
def getWebhook (s : WebhookStorage) (id : String) : Option WebhookStorageRecord :=
  s.webhooks.find? (fun w => w.id = id)

/-- `getAllWebhooks()`. -/
def getAllWebhooks (s : WebhookStorage) : List WebhookStorageRecord :=
  s.webhooks

/-- `getWebhooksByStatus(status)`. -/
def getWebhooksByStatus (s : WebhookStorage) (status : RecordStatus) :
    List WebhookStorageRecord :=
  s.webhooks.filter (fun w => w.status = status)

/-- `getPendingWebhooks(maxAttempts)`. -/
def getPendingWebhooks (s : WebhookStorage) (maxAttempts : Nat) :
    List WebhookStorageRecord :=
  s.webhooks.filter (fun w => w.status = .pending ∧ w.processingAttempts < maxAttempts)

/-- The record built by `storeWebhook` at clock `now` (ms) with random
suffix `rand`: id `webhook-<Date.now()>-<random suffix>`, status pending,
zero attempts. -/
def freshRecord (provider : WebhookProvider) (rawData : JSVal)
    (headers : Option (List (String × String))) (now : Nat) (rand : String) :
    WebhookStorageRecord :=
  { id := "webhook-" ++ toString now ++ "-" ++ rand
    provider := provider
    receivedAt := .now now
    processingAttempts := 0
    status := .pending
    rawData := rawData
    headers := headers }

/-- `storeWebhook(provider, rawData, headers?)`: builds the fresh record
and pushes it onto the in-memory array only — no file is written. -/
def storeWebhook (s : WebhookStorage) (provider : WebhookProvider) (rawData : JSVal)
    (headers : Option (List (String × String))) (now : Nat) (rand : String) :
    WebhookStorageRecord × WebhookStorage :=
  let webhook := freshRecord provider rawData headers now rand
  (webhook, { s with webhooks := s.webhooks ++ [webhook] })

/-- The in-place mutation `updateWebhook` applies to the found record:
increment the attempt counter, stamp the attempt time, then set the
status from the result (the `>= 3` test reads the already-incremented
counter), and record the processing result. -/
def updateRecord (result : WebhookProcessingResult) (now : Nat)
    (w : WebhookStorageRecord) : WebhookStorageRecord :=
  let w1 := { w with
    processingAttempts := w.processingAttempts + 1
    lastProcessingAttempt := some (.now now) }
  let w2 :=
    if result.success then
      { w1 with status := .processed, processedAt := some (.now now) }
    else if w1.processingAttempts ≥ 3 then
      { w1 with status := .failed }
    else w1
  { w2 with processingResult := some result }

/-- Replace the first record satisfying `p` with `f` of it (the effect of
mutating the object returned by `Array.prototype.find`). -/
def replaceFirst (p : WebhookStorageRecord → Bool)
    (f : WebhookStorageRecord → WebhookStorageRecord) :
    List WebhookStorageRecord → List WebhookStorageRecord
  | [] => []
  | w :: ws => if p w then f w :: ws else w :: replaceFirst p f ws

/-- `updateWebhook(id, result)`: find the record, mutate it in place,
return it; `none` and no change when the id is unknown. No file write. -/
def updateWebhook (s : WebhookStorage) (id : String)
    (result : WebhookProcessingResult) (now : Nat) :
    Option WebhookStorageRecord × WebhookStorage :=
  match s.webhooks.find? (fun w => w.id = id) with
  | none => (none, s)
  | some w =>
    (some (updateRecord result now w),
      { s with webhooks := replaceFirst (fun w => w.id = id) (updateRecord result now) s.webhooks })

/-- Remove the first record satisfying `p` (findIndex + splice). -/
def removeFirst (p : WebhookStorageRecord → Bool) :
    List WebhookStorageRecord → List WebhookStorageRecord
  | [] => []
  | w :: ws => if p w then ws else w :: removeFirst p ws

/-- `deleteWebhook(id)`: remove from memory and delete the file. -/
def deleteWebhook (s : WebhookStorage) (id : String) : Bool × WebhookStorage :=
  if s.webhooks.any (fun w => w.id = id) then
    (true,
      { webhooks := removeFirst (fun w => w.id = id) s.webhooks
        files := s.files.filter (fun kv => kv.1 ≠ id) })
  else (false, s)

/-- `clearWebhooks()`: drops the in-memory array only. -/
def clearWebhooks (_s : WebhookStorage) : WebhookStorage :=
  { webhooks := [], files := _s.files }

end WebhookStorage

/-- Header lookup `headers['name']`. -/
def lookupHeader (hs : List (String × String)) (k : String) : Option String :=
  hs.lookup k

/-- `v.toLowerCase()`: throws a TypeError unless `v` is a string. -/
def jsToLowerCase : JSVal → Except String String
  | .str s => .ok (toLowerJS s)
  | v => .error ("toLowerCase is not a function on " ++ v.display)

/-! ## DoorDash signature verification (src/utils/doorDashAuth.ts) -/

/-- DoorDash credentials and the HMAC primitive. `none`/empty-string
credentials are falsy and make verification fail. `hmacSha256 key msg`
stands for `crypto.createHmac('sha256', key).update(msg).digest('hex')`. -/
structure DoorDashConfig where
  developerId : Option String
  signingSecret : Option String
  hmacSha256 : String → String → String

/-- `signature.split(',').find(s => s.startsWith('v1='))?.split('=')[1]`. -/
def extractV1 (signature : String) : Option String :=
  match (splitOnChar ',' signature.toList).find?
      (fun part => charListHasStart part ['v', '1', '=']) with
  | none => none
  | some part => ((splitOnChar '=' part).get? 1).map String.mk

/-- `verifyWebhookSignature(signature, timestamp, body)`.  The first
parameter is kept dynamically typed because the DoorDash processor passes
the raw payload object in that position; `.split` on a non-string throws,
which the surrounding try/catch turns into `false`.  A `NaN` request time
(non-numeric `timestamp` argument) makes the staleness comparison false.
`crypto.timingSafeEqual` on the two hex buffers throws on a length
mismatch (caught → false) and otherwise compares the digests. -/
def verifyWebhookSignature (cfg : DoorDashConfig) (signature : JSVal)
    (timestamp : String) (body : String) (nowSec : Int) : Bool :=
  match cfg.developerId, cfg.signingSecret with
  | some devId, some secret =>
    if devId = "" ∨ secret = "" then false
    else
      let stale : Bool :=
        match parseIntJS timestamp with
        | some requestTime => decide (nowSec - requestTime > 300)
        | none => false
      if stale then false
      else
        match signature with
        | .str sigStr =>
          match extractV1 sigStr with
          | none => false
          | some provided =>
            if provided = "" then false
            else
              let message := timestamp ++ devId ++ body
              let computed := cfg.hmacSha256 secret message
              if provided.length = computed.length then provided == computed else false
        | _ => false
  | _, _ => false

/-! ## DoorDash webhook processor (src/webhooks/DoorDashWebhookProcessor.ts) -/

/-- `mapEventType` (strict string switch). -/
def ddMapEventType : JSVal → WebhookEventType
  | .str "delivery_created" => .DELIVERY_CREATED
  | .str "delivery_status_update" => .DELIVERY_STATUS_CHANGED
  | _ => .UNKNOWN

/-- `mapDeliveryStatus` (strict string switch). -/
def ddMapDeliveryStatus : JSVal → WebhookDeliveryStatus
  | .str "created" => .PENDING
  | .str "dasher_assigned" => .ASSIGNED
  | .str "picked_up" => .PICKUP
  | .str "en_route_to_dropoff" => .IN_TRANSIT
  | .str "delivered" => .DELIVERED
  | .str "delivery_failed" => .FAILED
  | .str "canceled" => .CANCELLED
  | _ => .UNKNOWN

/-- `DoorDashWebhookProcessor.parseWebhookEvent(rawData)` at clock `now`
(ms).  The only throwing step is property access on a nullish payload. -/
def ddParseWebhookEvent (rawData : JSVal) (now : Nat) : Except String WebhookEvent := do
  let etRaw ← rawData.getProp "event_type"
  let eventType := ddMapEventType etRaw
  let dataVal ← rawData.getProp "data"
  let deliveryId := jsOr (dataVal.getPropOpt "delivery_id") (.str "")
  let externalDeliveryId := jsOr (dataVal.getPropOpt "external_delivery_id") (.str "")
  let eventId ← rawData.getProp "event_id"
  let createdAt ← rawData.getProp "created_at"
  let event : WebhookEvent :=
    { id := jsOr eventId (.str ("dd-event-" ++ toString now))
      provider := .DOORDASH
      eventType := eventType
      timestamp := if createdAt.truthy then .fromVal createdAt else .now now
      deliveryId := deliveryId
      externalDeliveryId := some externalDeliveryId
      rawData := rawData }
  if eventType = .DELIVERY_STATUS_CHANGED ∨ eventType = .DELIVERY_CREATED then
    let ds := dataVal.getPropOpt "delivery_status"
    let sd := jsOr (dataVal.getPropOpt "status_details") (.str "")
    let edt := dataVal.getPropOpt "estimated_delivery_time"
    return { event with
      status := some (ddMapDeliveryStatus ds)
      statusDetails := some sd
      estimatedDeliveryTime := if edt.truthy then some (.fromVal edt) else none }
  else
    return event

/-- The success result both processors build after parsing: `Processed
<eventType> event for delivery <deliveryId>` with the event attached. -/
def processedResult (event : WebhookEvent) : WebhookProcessingResult :=
  { success := true
    message := "Processed " ++ event.eventType.toStr ++ " event for delivery "
      ++ event.deliveryId.display
    event := some event }

/-- `DoorDashWebhookProcessor.verifyWebhook(rawData, headers)`.  Note the
argument order of the inner call in the source: the raw payload is passed
where `verifyWebhookSignature` expects the signature string, the
signature header where it expects the timestamp, and the timestamp header
where it expects the raw body. -/
def ddVerifyWebhook (cfg : DoorDashConfig) (rawData : JSVal)
    (headers : Option (List (String × String))) (nowSec : Int) : Bool :=
  match headers with
  | none => false
  | some hs =>
    match lookupHeader hs "x-doordash-signature", lookupHeader hs "x-doordash-timestamp" with
    | some sig, some ts =>
      if sig = "" ∨ ts = "" then false
      else verifyWebhookSignature cfg rawData sig ts nowSec
    | _, _ => false

/-- DoorDash processor configuration: the development-mode flag plus the
verifier credentials. -/
structure DoorDashProcessorEnv where
  developmentMode : Bool
  cfg : DoorDashConfig

/-- The store → parse → dispatch → update tail of
`DoorDashWebhookProcessor.processWebhook` (reached after the signature
gate).  `storeWebhook` is called without the headers argument.  A parse
exception is caught and turned into a failure result without any
`updateWebhook` call; on success the record is updated with the success
result. -/
def ddProcessStored (s : WebhookStorage) (rawData : JSVal) (now : Nat)
    (rand : String) : WebhookProcessingResult × WebhookStorage :=
  let (webhook, s1) := s.storeWebhook .DOORDASH rawData none now rand
  match ddParseWebhookEvent rawData now with
  | .error e =>
    ({ success := false, message := "Error processing webhook: " ++ e, error := some e }, s1)
  | .ok event =>
    let result := processedResult event
    let (_, s2) := s1.updateWebhook webhook.id result now
    (result, s2)

/-- `DoorDashWebhookProcessor.processWebhook(rawData, headers)`:
verification runs only when headers are present and development mode is
off; on verification failure the invalid-signature result is returned
without storing anything. -/
def ddProcessWebhook (env : DoorDashProcessorEnv) (s : WebhookStorage)
    (rawData : JSVal) (headers : Option (List (String × String)))
    (now : Nat) (rand : String) : WebhookProcessingResult × WebhookStorage :=
  if headers.isSome ∧ ¬env.developmentMode then
    if ¬ ddVerifyWebhook env.cfg rawData headers ((now / 1000 : Nat) : Int) then
      ({ success := false, message := "Invalid webhook signature" }, s)
    else ddProcessStored s rawData now rand
  else ddProcessStored s rawData now rand

/-! ## Uber webhook processor (UberWebhookProcessor) -/

/-- Uber processor configuration: the client secret, the development-mode
bypass flag, the HMAC primitive and `JSON.stringify` (uninterpreted). -/
structure UberProcessorEnv where
  clientSecret : String
  isDevelopmentMode : Bool
  hmacSha256 : String → String → String
  jsonStringify : JSVal → String

/-- `UberWebhookProcessor.verifyWebhook(rawData, headers)`. -/
def uberVerifyWebhook (env : UberProcessorEnv) (rawData : JSVal)
    (headers : Option (List (String × String))) : Bool :=
  if env.isDevelopmentMode then true
  else
    match headers with
    | none => false
    | some hs =>
      let sig :=
        match lookupHeader hs "x-uber-signature" with
        | some s => if s ≠ "" then some s else lookupHeader hs "x-postmates-signature"
        | none => lookupHeader hs "x-postmates-signature"
      match sig with
      | none => false
      | some sigStr =>
        if sigStr = "" then false
        else if env.clientSecret = "" then false
        else sigStr == env.hmacSha256 env.clientSecret (env.jsonStringify rawData)

/-- `UberWebhookProcessor.mapEventType`: falsy input is unknown, a truthy
non-string throws at `.toLowerCase()`, and the lowered string is matched
first against the Direct-API names then by substring for the legacy ones. -/
def uberMapEventType (uberEventType : JSVal) : Except String WebhookEventType :=
  if ¬uberEventType.truthy then .ok .UNKNOWN
  else do
    let t ← jsToLowerCase uberEventType
    if t = "event.delivery_status" then return .DELIVERY_STATUS_CHANGED
    else if t = "event.courier_update" then return .COURIER_LOCATION_UPDATED
    else if includesJS t "delivery.created" then return .DELIVERY_CREATED
    else if includesJS t "status.changed" then return .DELIVERY_STATUS_CHANGED
    else if includesJS t "pickup.completed" then return .DELIVERY_PICKUP
    else if includesJS t "delivery.completed" then return .DELIVERY_COMPLETED
    else if includesJS t "cancelled" || includesJS t "canceled" then return .DELIVERY_CANCELLED
    else return .UNKNOWN

/-- `UberWebhookProcessor.mapDeliveryStatus`: falsy input is unknown, a
truthy non-string throws at `.toLowerCase()`, then a string switch. -/
def uberMapDeliveryStatus (uberStatus : JSVal) : Except String WebhookDeliveryStatus :=
  if ¬uberStatus.truthy then .ok .UNKNOWN
  else do
    let st ← jsToLowerCase uberStatus
    return (match st with
      | "pending" => .PENDING
      | "pickup" => .ASSIGNED
      | "pickup_complete" => .PICKUP
      | "dropoff" => .IN_TRANSIT
      | "delivered" => .DELIVERED
      | "canceled" | "cancelled" => .CANCELLED
      | "returned" => .RETURNED
      | "created" => .PENDING
      | "courier_assigned" | "accepted" => .ASSIGNED
      | "picked_up" => .PICKUP
      | "in_transit" | "en_route_to_dropoff" => .IN_TRANSIT
      | "completed" => .DELIVERED
      | "failed" | "delivery_failed" => .FAILED
      | _ => .UNKNOWN)

/-- `UberWebhookProcessor.parseWebhookEvent(rawData)` at clock `now` (ms).
Reconciles the legacy (`meta`) and Direct (`data`) payload shapes with
`||`/`&&` chains exactly as the source does.  Throws on a nullish payload
and on truthy non-string event types / statuses. -/
def uberParseWebhookEvent (rawData : JSVal) (now : Nat) : Except String WebhookEvent := do
  let kind ← rawData.getProp "kind"
  let etField ← rawData.getProp "event_type"
  let eventType := jsOr kind etField
  let dId ← rawData.getProp "delivery_id"
  let meta ← rawData.getProp "meta"
  let dataVal ← rawData.getProp "data"
  let deliveryId :=
    jsOr (jsOr (jsOr dId (jsAnd meta (meta.getPropOpt "resource_id")))
          (jsAnd dataVal (dataVal.getPropOpt "id")))
      (.str "")
  let created ← rawData.getProp "created"
  let eventTime ← rawData.getProp "event_time"
  let timestamp :=
    if created.truthy then JSDate.fromVal created
    else if eventTime.truthy then JSDate.fromMillisVal eventTime
    else JSDate.now now
  let idField ← rawData.getProp "id"
  let etMapped ← uberMapEventType eventType
  let event : WebhookEvent :=
    { id := jsOr idField (.str ("uber-event-" ++ toString now))
      provider := .UBER
      eventType := etMapped
      timestamp := timestamp
      deliveryId := deliveryId
      rawData := rawData }
  if etMapped = .DELIVERY_STATUS_CHANGED ∨ etMapped = .DELIVERY_CREATED
      ∨ etMapped = .DELIVERY_PICKUP ∨ etMapped = .DELIVERY_COMPLETED
      ∨ etMapped = .DELIVERY_CANCELLED then
    let statusField ← rawData.getProp "status"
    let statusVal :=
      jsOr (jsOr (jsOr statusField (jsAnd meta (meta.getPropOpt "status")))
            (jsAnd dataVal (dataVal.getPropOpt "status")))
        (.str "unknown")
    let locField ← rawData.getProp "location"
    let location :=
      jsOr (jsOr locField
            (jsAnd (jsAnd dataVal (dataVal.getPropOpt "courier"))
              ((dataVal.getPropOpt "courier").getPropOpt "location")))
        .undefined
    let trackingUrl := jsAnd dataVal (dataVal.getPropOpt "tracking_url")
    let dropoffEta := jsAnd dataVal (dataVal.getPropOpt "dropoff_eta")
    let status ← uberMapDeliveryStatus statusVal
    return { event with
      status := some status
      statusDetails := some statusVal
      location := some (if location.truthy then
          some (jsOr (location.getPropOpt "lat") (location.getPropOpt "latitude"),
                jsOr (location.getPropOpt "lng") (location.getPropOpt "longitude"))
        else none)
      estimatedDeliveryTime := if dropoffEta.truthy then some (.fromVal dropoffEta) else none
      trackingUrl := some (jsOr trackingUrl .undefined) }
  else
    return event

/-- The store → parse → dispatch → update tail of
`UberWebhookProcessor.processWebhook`, after the signature gate.  As in
the DoorDash processor, `storeWebhook` is called without the headers
argument and a parse exception skips the `updateWebhook` call. -/
def uberProcessStored (s : WebhookStorage) (rawData : JSVal) (now : Nat)
    (rand : String) : WebhookProcessingResult × WebhookStorage :=
  let (webhook, s1) := s.storeWebhook .UBER rawData none now rand
  match uberParseWebhookEvent rawData now with
  | .error e =>
    ({ success := false, message := "Error processing webhook: " ++ e, error := some e }, s1)
  | .ok event =>
    let result := processedResult event
    let (_, s2) := s1.updateWebhook webhook.id result now
    (result, s2)

/-- `UberWebhookProcessor.processWebhook(rawData, headers)`. -/
def uberProcessWebhook (env : UberProcessorEnv) (s : WebhookStorage)
    (rawData : JSVal) (headers : Option (List (String × String)))
    (now : Nat) (rand : String) : WebhookProcessingResult × WebhookStorage :=
  if headers.isSome ∧ ¬env.isDevelopmentMode then
    if ¬ uberVerifyWebhook env rawData headers then
      ({ success := false, message := "Invalid webhook signature" }, s)
    else uberProcessStored s rawData now rand
  else uberProcessStored s rawData now rand

/-! ## Reachable storage states

States generated from a fresh storage by the two mutators the processors
and the queue go through (`storeWebhook`, `updateWebhook`) together with
record deletion and clearing.  Per the design, these are the sole writers
of webhook records. -/

inductive Reachable : WebhookStorage → Prop where
  | empty : Reachable WebhookStorage.empty
  | store (s : WebhookStorage) (provider : WebhookProvider) (rawData : JSVal)
      (headers : Option (List (String × String))) (now : Nat) (rand : String) :
      Reachable s → Reachable (s.storeWebhook provider rawData headers now rand).2
  | update (s : WebhookStorage) (id : String) (result : WebhookProcessingResult) (now : Nat) :
      Reachable s → Reachable (s.updateWebhook id result now).2
  | delete (s : WebhookStorage) (id : String) :
      Reachable s → Reachable (s.deleteWebhook id).2
  | clear (s : WebhookStorage) :
      Reachable s → Reachable s.clearWebhooks

instance {ε α : Type} [DecidableEq ε] [DecidableEq α] : DecidableEq (Except ε α) := fun a b =>
  match a, b with
  | .ok x, .ok y => if h : x = y then .isTrue (by rw [h]) else .isFalse (by simp [h])
  | .error x, .error y => if h : x = y then .isTrue (by rw [h]) else .isFalse (by simp [h])
  | .ok _, .error _ => .isFalse (by simp)
  | .error _, .ok _ => .isFalse (by simp)

/-! ## Concrete fixtures used by witnesses and counterexamples -/

/-- A concrete stand-in for the HMAC-SHA256 primitive, used to
instantiate the uninterpreted environment fields in closed theorems. -/
def hmacTest (key msg : String) : String := "mac[" ++ key ++ "|" ++ msg ++ "]"

/-- DoorDash credentials fixture. -/
def ddCfgTest : DoorDashConfig :=
  { developerId := some "dev", signingSecret := some "sec", hmacSha256 := hmacTest }

/-- DoorDash processor fixture with development mode off (production). -/
def ddEnvProd : DoorDashProcessorEnv := { developmentMode := false, cfg := ddCfgTest }

/-- DoorDash processor fixture with development mode on. -/
def ddEnvDev : DoorDashProcessorEnv := { developmentMode := true, cfg := ddCfgTest }

/-- Uber processor fixture with the bypass off (production). -/
def uberEnvProd : UberProcessorEnv :=
  { clientSecret := "usec", isDevelopmentMode := false,
    hmacSha256 := hmacTest, jsonStringify := JSVal.display }

/-- A failing processing result. -/
def failResultT : WebhookProcessingResult := { success := false, message := "boom" }

/-- A successful processing result. -/
def okResultT : WebhookProcessingResult := { success := true, message := "ok" }

/-! ## Helper lemmas -/

theorem mem_replaceFirst {p : WebhookStorageRecord → Bool}
    {f : WebhookStorageRecord → WebhookStorageRecord} {l : List WebhookStorageRecord}
    {x : WebhookStorageRecord} (hx : x ∈ WebhookStorage.replaceFirst p f l) :
    x ∈ l ∨ ∃ w, w ∈ l ∧ p w = true ∧ x = f w := by
  induction l with
  | nil => simp [WebhookStorage.replaceFirst] at hx
  | cons w ws ih =>
    simp only [WebhookStorage.replaceFirst] at hx
    by_cases hp : p w = true
    · rw [if_pos hp] at hx
      rcases List.mem_cons.mp hx with h | h
      · exact Or.inr ⟨w, List.mem_cons_self _ _, hp, h⟩
      · exact Or.inl (List.mem_cons_of_mem _ h)
    · rw [if_neg (by simpa using hp)] at hx
      rcases List.mem_cons.mp hx with h | h
      · exact Or.inl (h ▸ List.mem_cons_self _ _)
      · rcases ih h with h' | ⟨w', hw', hpw', hx'⟩
        · exact Or.inl (List.mem_cons_of_mem _ h')
        · exact Or.inr ⟨w', List.mem_cons_of_mem _ hw', hpw', hx'⟩

theorem mem_removeFirst {p : WebhookStorageRecord → Bool} {l : List WebhookStorageRecord}
    {x : WebhookStorageRecord} (hx : x ∈ WebhookStorage.removeFirst p l) : x ∈ l := by
  induction l with
  | nil => simp [WebhookStorage.removeFirst] at hx
  | cons w ws ih =>
    simp only [WebhookStorage.removeFirst] at hx
    by_cases hp : p w = true
    · rw [if_pos hp] at hx
      exact List.mem_cons_of_mem _ hx
    · rw [if_neg (by simpa using hp)] at hx
      rcases List.mem_cons.mp hx with h | h
      · exact h ▸ List.mem_cons_self _ _
      · exact List.mem_cons_of_mem _ (ih h)

theorem replaceFirst_append_of_not {p : WebhookStorageRecord → Bool}
    {f : WebhookStorageRecord → WebhookStorageRecord} {l : List WebhookStorageRecord}
    {w : WebhookStorageRecord} (hl : ∀ x ∈ l, p x = false) (hw : p w = true) :
    WebhookStorage.replaceFirst p f (l ++ [w]) = l ++ [f w] := by
  induction l with
  | nil => simp [WebhookStorage.replaceFirst, hw]
  | cons y ys ih =>
    have hy : p y = false := hl y (List.mem_cons_self _ _)
    simp only [List.cons_append, WebhookStorage.replaceFirst, hy]
    simp only [Bool.false_eq_true, if_false]
    exact congrArg (fun t => y :: t) (ih (fun x hx => hl x (List.mem_cons_of_mem _ hx)))

theorem find?_append_of_not {p : WebhookStorageRecord → Bool}
    {l : List WebhookStorageRecord} {w : WebhookStorageRecord}
    (hl : ∀ x ∈ l, p x = false) (hw : p w = true) :
    (l ++ [w]).find? p = some w := by
  induction l with
  | nil => simp [List.find?, hw]
  | cons y ys ih =>
    have hy : p y = false := hl y (List.mem_cons_self _ _)
    simp only [List.cons_append, List.find?, hy]
    exact ih (fun x hx => hl x (List.mem_cons_of_mem _ hx))

theorem updateRecord_headers (result : WebhookProcessingResult) (now : Nat)
    (w : WebhookStorageRecord) :
    (WebhookStorage.updateRecord result now w).headers = w.headers := by
  simp only [WebhookStorage.updateRecord]
  split
  · rfl
  · split
    · rfl
    · rfl

theorem updateRecord_pending_lt (result : WebhookProcessingResult) (now : Nat)
    (w : WebhookStorageRecord)
    (h : (WebhookStorage.updateRecord result now w).status = .pending) :
    (WebhookStorage.updateRecord result now w).processingAttempts < 3 := by
  by_cases h1 : result.success = true
  · simp [WebhookStorage.updateRecord, h1] at h
  · by_cases h2 : 2 ≤ w.processingAttempts
    · simp [WebhookStorage.updateRecord, h1, h2] at h
    · simp [WebhookStorage.updateRecord, h1, h2]
      omega

theorem updateWebhook_found {s : WebhookStorage} {id : String}
    {w : WebhookStorageRecord} (result : WebhookProcessingResult) (now : Nat)
    (hw : s.getWebhook id = some w) :
    s.updateWebhook id result now
      = (some (WebhookStorage.updateRecord result now w),
         { s with webhooks := WebhookStorage.replaceFirst (fun x => x.id = id)
                                (WebhookStorage.updateRecord result now) s.webhooks }) := by
  simp only [WebhookStorage.updateWebhook, WebhookStorage.getWebhook] at hw ⊢
  rw [hw]

theorem updateWebhook_files (s : WebhookStorage) (id : String)
    (result : WebhookProcessingResult) (now : Nat) :
    (s.updateWebhook id result now).2.files = s.files := by
  simp only [WebhookStorage.updateWebhook]
  split <;> rfl

theorem lookup_writeFile (files : List (String × WebhookStorageRecord))
    (id : String) (w : WebhookStorageRecord) :
    (WebhookStorage.writeFile files id w).lookup id = some w := by
  induction files with
  | nil => simp [WebhookStorage.writeFile, List.lookup]
  | cons kv rest ih =>
    simp only [WebhookStorage.writeFile]
    by_cases h : kv.1 = id
    · rw [if_pos h]
      simp [List.lookup]
    · rw [if_neg h]
      simp only [List.lookup]
      have hne : (id == kv.1) = false := beq_eq_false_iff_ne.mpr (fun hh => h hh.symm)
      simp only [hne]
      exact ih

theorem updateRecord_attempts (result : WebhookProcessingResult) (now : Nat)
    (w : WebhookStorageRecord) :
    (WebhookStorage.updateRecord result now w).processingAttempts
      = w.processingAttempts + 1 := by
  simp only [WebhookStorage.updateRecord]
  split
  · rfl
  · split
    · rfl
    · rfl

theorem updateRecord_last (result : WebhookProcessingResult) (now : Nat)
    (w : WebhookStorageRecord) :
    (WebhookStorage.updateRecord result now w).lastProcessingAttempt
      = some (.now now) := by
  simp only [WebhookStorage.updateRecord]
  split
  · rfl
  · split
    · rfl
    · rfl

/-! ## Claims -/

/-- C1 (amended): `updateWebhook` does not guard terminal states in
general; what does hold is terminal stability in the matching direction —
a record whose status is `processed` keeps that status under any update
carrying a success result, and a record whose status is `failed` keeps
that status under any update carrying a failure result. -/
theorem C1_terminal_stability_directed (s : WebhookStorage) (id : String)
    (result : WebhookProcessingResult) (now : Nat) (w : WebhookStorageRecord)
    (hw : s.getWebhook id = some w) :
    (w.status = .processed → result.success = true →
      ∃ w', (s.updateWebhook id result now).1 = some w' ∧ w'.status = .processed)
    ∧ (w.status = .failed → result.success = false →
      ∃ w', (s.updateWebhook id result now).1 = some w' ∧ w'.status = .failed) := by
  rw [updateWebhook_found result now hw]
  constructor
  · intro _ hs
    exact ⟨_, rfl, by simp [WebhookStorage.updateRecord, hs]⟩
  · intro hst hs
    refine ⟨_, rfl, ?_⟩
    by_cases h2 : 2 ≤ w.processingAttempts
    · simp [WebhookStorage.updateRecord, hs, h2]
    · simp [WebhookStorage.updateRecord, hs, h2, hst]

/-- A record with a processed terminal status used as a witness input. -/
def recProcessedW : WebhookStorageRecord :=
  { id := "webhook-0-r", provider := .DOORDASH, receivedAt := .now 0
    processedAt := some (.now 1), processingAttempts := 1
    lastProcessingAttempt := some (.now 1), status := .processed
    rawData := .objNil, processingResult := some okResultT }

/-- A record with a failed terminal status used as a witness input. -/
def recFailedW : WebhookStorageRecord :=
  { id := "webhook-0-r", provider := .DOORDASH, receivedAt := .now 0
    processingAttempts := 3, lastProcessingAttempt := some (.now 3)
    status := .failed, rawData := .objNil, processingResult := some failResultT }

theorem C1_witness :
    (∃ w', ((WebhookStorage.mk [recProcessedW] []).updateWebhook "webhook-0-r" okResultT 9).1
        = some w' ∧ w'.status = .processed)
    ∧ (∃ w', ((WebhookStorage.mk [recFailedW] []).updateWebhook "webhook-0-r" failResultT 9).1
        = some w' ∧ w'.status = .failed) :=
  ⟨(C1_terminal_stability_directed (WebhookStorage.mk [recProcessedW] []) "webhook-0-r"
      okResultT 9 recProcessedW (by decide)).1 (by decide) (by decide),
   (C1_terminal_stability_directed (WebhookStorage.mk [recFailedW] []) "webhook-0-r"
      failResultT 9 recFailedW (by decide)).2 (by decide) (by decide)⟩

/-- The storage state reached from empty by storing one DoorDash webhook
and applying three failing updates: the record ends with status `failed`
and three attempts. -/
def cexC1State : WebhookStorage :=
  ((((WebhookStorage.empty.storeWebhook .DOORDASH .objNil none 0 "r").2.updateWebhook
    "webhook-0-r" failResultT 1).2.updateWebhook
    "webhook-0-r" failResultT 2).2.updateWebhook
    "webhook-0-r" failResultT 3).2

/-- C1 counterexample: after three failing updates the record is
terminally `failed`, yet a fourth `updateWebhook` carrying a success
result flips its status to `processed` — a `failed` record does become
`processed`, so terminal states are not stable under `updateWebhook`. -/
theorem C1_counterexample :
    ((cexC1State.getWebhook "webhook-0-r").map (fun w => w.status) = some .failed)
    ∧ (((cexC1State.updateWebhook "webhook-0-r" okResultT 4).1.map (fun w => w.status))
        = some .processed) := by decide

/-- C2: when headers are present, development bypass is off and signature
verification fails, both processors return the invalid-signature failure
result and leave the storage untouched — nothing is stored or updated. -/
theorem C2_invalid_signature_rejected_without_storing
    (env : DoorDashProcessorEnv) (uenv : UberProcessorEnv) (s : WebhookStorage)
    (rawData : JSVal) (hs : List (String × String)) (now : Nat) (rand : String)
    (hdev : env.developmentMode = false) (hudev : uenv.isDevelopmentMode = false)
    (hv : ddVerifyWebhook env.cfg rawData (some hs) ((now / 1000 : Nat) : Int) = false)
    (huv : uberVerifyWebhook uenv rawData (some hs) = false) :
    ddProcessWebhook env s rawData (some hs) now rand
      = ({ success := false, message := "Invalid webhook signature" }, s)
    ∧ uberProcessWebhook uenv s rawData (some hs) now rand
      = ({ success := false, message := "Invalid webhook signature" }, s) := by
  constructor
  · simp only [ddProcessWebhook, hv]
    simp [hdev]
  · simp only [uberProcessWebhook, huv]
    simp [hudev]

theorem C2_witness :
    ddProcessWebhook ddEnvProd WebhookStorage.empty .objNil
        (some [("x-doordash-signature", "t=1,v1=zz")]) 0 "r"
      = ({ success := false, message := "Invalid webhook signature" }, WebhookStorage.empty)
    ∧ uberProcessWebhook uberEnvProd WebhookStorage.empty .objNil
        (some [("x-uber-signature", "bad")]) 0 "r"
      = ({ success := false, message := "Invalid webhook signature" }, WebhookStorage.empty) :=
  C2_invalid_signature_rejected_without_storing ddEnvProd uberEnvProd WebhookStorage.empty
    .objNil [("x-doordash-signature", "t=1,v1=zz")] 0 "r"
    (by decide) (by decide) (by decide) (by decide)

/-- C3 (amended): for an existing record, `updateWebhook` increments the
attempt counter by one, stamps `lastProcessingAttempt`, records the
result; a success result sets `processed`/`processedAt`; a failure result
sets `failed` when the incremented counter reaches 3, and otherwise
leaves the status unchanged (in particular a pending record stays
pending). -/
theorem C3_updateWebhook_transition (s : WebhookStorage) (id : String)
    (result : WebhookProcessingResult) (now : Nat) (w : WebhookStorageRecord)
    (hw : s.getWebhook id = some w) :
    ∃ w', (s.updateWebhook id result now).1 = some w'
      ∧ w'.processingAttempts = w.processingAttempts + 1
      ∧ w'.lastProcessingAttempt = some (.now now)
      ∧ w'.processingResult = some result
      ∧ (result.success = true → w'.status = .processed ∧ w'.processedAt = some (.now now))
      ∧ (result.success = false → w.processingAttempts + 1 ≥ 3 → w'.status = .failed)
      ∧ (result.success = false → w.processingAttempts + 1 < 3 →
          w'.status = w.status) := by
  rw [updateWebhook_found result now hw]
  refine ⟨_, rfl, updateRecord_attempts result now w, updateRecord_last result now w,
    rfl, ?_, ?_, ?_⟩
  · intro hs
    constructor <;> simp [WebhookStorage.updateRecord, hs]
  · intro hs hge
    have h2 : 2 ≤ w.processingAttempts := by omega
    simp [WebhookStorage.updateRecord, hs, h2]
  · intro hs hlt
    have h2 : ¬ 2 ≤ w.processingAttempts := by omega
    simp [WebhookStorage.updateRecord, hs, h2]

theorem C3_witness :
    ∃ w', ((WebhookStorage.mk [recFailedW] []).updateWebhook "webhook-0-r" okResultT 9).1
        = some w'
      ∧ w'.processingAttempts = recFailedW.processingAttempts + 1
      ∧ w'.lastProcessingAttempt = some (.now 9)
      ∧ w'.processingResult = some okResultT
      ∧ (okResultT.success = true → w'.status = .processed ∧ w'.processedAt = some (.now 9))
      ∧ (okResultT.success = false → recFailedW.processingAttempts + 1 ≥ 3 →
          w'.status = .failed)
      ∧ (okResultT.success = false → recFailedW.processingAttempts + 1 < 3 →
          w'.status = recFailedW.status) :=
  C3_updateWebhook_transition (WebhookStorage.mk [recFailedW] []) "webhook-0-r"
    okResultT 9 recFailedW (by decide)

/-- The storage state reached from empty by storing one webhook and
applying one successful update: the record is `processed` with one
attempt. -/
def cexC3State : WebhookStorage :=
  ((WebhookStorage.empty.storeWebhook .DOORDASH .objNil none 0 "r").2.updateWebhook
    "webhook-0-r" okResultT 1).2

/-- C3 counterexample: on a record whose status is `processed` with one
attempt, a failing `updateWebhook` increments the counter to 2 (< 3), and
the status is left `processed`, not `pending` as the claim's final clause
states for every existing record. -/
theorem C3_counterexample :
    failResultT.success = false
    ∧ ((cexC3State.updateWebhook "webhook-0-r" failResultT 2).1.map
        (fun w => (w.processingAttempts, w.status))) = some (2, .processed) := by decide

/-- C4 (amended): an exception thrown during event parsing inside
`processWebhook` is caught and converted into a `success:false` result
carrying the error — but `updateWebhook` is never invoked on the error
path: the final storage state is exactly the post-store state, so the
stored record keeps status `pending`, zero attempts and no recorded
outcome. -/
theorem C4_exception_caught_record_left_unupdated
    (env : DoorDashProcessorEnv) (uenv : UberProcessorEnv) (s : WebhookStorage)
    (rawData : JSVal) (now : Nat) (rand : String) (e e' : String)
    (hdd : ddParseWebhookEvent rawData now = .error e)
    (hu : uberParseWebhookEvent rawData now = .error e') :
    ddProcessWebhook env s rawData none now rand
      = ({ success := false, message := "Error processing webhook: " ++ e, error := some e },
         (s.storeWebhook .DOORDASH rawData none now rand).2)
    ∧ uberProcessWebhook uenv s rawData none now rand
      = ({ success := false, message := "Error processing webhook: " ++ e', error := some e' },
         (s.storeWebhook .UBER rawData none now rand).2) := by
  constructor
  · simp only [ddProcessWebhook, ddProcessStored, hdd]
    simp [WebhookStorage.storeWebhook]
  · simp only [uberProcessWebhook, uberProcessStored, hu]
    simp [WebhookStorage.storeWebhook]

theorem C4_witness :
    ddProcessWebhook ddEnvProd WebhookStorage.empty .null none 0 "r"
      = ({ success := false
           message := "Error processing webhook: Cannot read properties of null (reading event_type)"
           error := some "Cannot read properties of null (reading event_type)" },
         (WebhookStorage.empty.storeWebhook .DOORDASH .null none 0 "r").2)
    ∧ uberProcessWebhook uberEnvProd WebhookStorage.empty .null none 0 "r"
      = ({ success := false
           message := "Error processing webhook: Cannot read properties of null (reading kind)"
           error := some "Cannot read properties of null (reading kind)" },
         (WebhookStorage.empty.storeWebhook .UBER .null none 0 "r").2) :=
  C4_exception_caught_record_left_unupdated ddEnvProd uberEnvProd WebhookStorage.empty
    .null 0 "r" "Cannot read properties of null (reading event_type)"
    "Cannot read properties of null (reading kind)" (by decide) (by decide)

/-- C4 counterexample: processing a `null` DoorDash payload (headers
absent, production mode) throws during parsing; the result is converted
to `success:false`, but the record stored for the request is left with
status `pending`, zero `processingAttempts` and no `processingResult` —
`updateWebhook` was never invoked, contradicting the claim that the
record is always updated. -/
theorem C4_counterexample :
    (ddProcessWebhook ddEnvProd WebhookStorage.empty .null none 0 "r").1.success = false
    ∧ ((ddProcessWebhook ddEnvProd WebhookStorage.empty .null none 0 "r").2.getWebhook
        "webhook-0-r").map (fun w => (w.status, w.processingAttempts, w.processingResult))
      = some (.pending, 0, none) := by decide

/-- C5 (amended): `storeWebhook` and `updateWebhook` mutate only the
in-memory array and leave the file store untouched; only `saveWebhook`
writes a record to the file store, where it is keyed by the record id. -/
theorem C5_only_saveWebhook_persists (s : WebhookStorage) (provider : WebhookProvider)
    (rawData : JSVal) (headers : Option (List (String × String)))
    (now : Nat) (rand : String) (id : String) (result : WebhookProcessingResult)
    (w : WebhookStorageRecord) :
    (s.storeWebhook provider rawData headers now rand).2.files = s.files
    ∧ (s.updateWebhook id result now).2.files = s.files
    ∧ (s.saveWebhook w).files.lookup w.id = some w :=
  ⟨rfl, updateWebhook_files s id result now, lookup_writeFile s.files w.id w⟩

/-- C5 counterexample: a record created by `storeWebhook` and then
updated by `updateWebhook` exists in the in-memory index, yet the durable
file store is still empty — records are not written to stable storage at
creation or on update, contradicting the claim. -/
theorem C5_counterexample :
    ((WebhookStorage.empty.storeWebhook .DOORDASH .objNil none 0 "r").2.webhooks.length = 1)
    ∧ ((WebhookStorage.empty.storeWebhook .DOORDASH .objNil none 0 "r").2.files = [])
    ∧ (((WebhookStorage.empty.storeWebhook .DOORDASH .objNil none 0 "r").2.updateWebhook
        "webhook-0-r" okResultT 1).2.files = []) := by decide

/-- A DoorDash payload whose signature is computed correctly. -/
def ddBodyC6 : JSVal := JSVal.mkObj [("event_type", .str "delivery_status_update")]

/-- The DoorDash signature header `t=<ts>,v1=<hmac>` whose `v1` value is
the genuine HMAC of `timestamp + developerId + body` under the fixture
credentials, for timestamp 1000 and raw body string `BODY`. -/
def sigFreshC6 : String := "t=1000,v1=" ++ hmacTest "sec" ("1000" ++ "dev" ++ "BODY")

/-- C6: `verifyWebhookSignature` itself (arguments in its declared order)
accepts the correctly signed request at a fresh clock (1100s, 100s after
the timestamp) and rejects the same correctly signed request at a stale
clock (2000s, 1000s later) — but the processor's verification path
(`ddVerifyWebhook`, which passes the raw payload object where the
function expects the signature string) rejects the correctly signed,
fresh request as well: the payload object has no `.split`, the TypeError
is caught, and `false` is returned. -/
theorem C6_processor_rejects_correctly_signed :
    verifyWebhookSignature ddCfgTest (.str sigFreshC6) "1000" "BODY" 1100 = true
    ∧ verifyWebhookSignature ddCfgTest (.str sigFreshC6) "1000" "BODY" 2000 = false
    ∧ ddVerifyWebhook ddCfgTest ddBodyC6
        (some [("x-doordash-signature", sigFreshC6), ("x-doordash-timestamp", "1000")])
        1100 = false := by decide

theorem updateRecord_success_status (result : WebhookProcessingResult) (now : Nat)
    (w : WebhookStorageRecord) (h : result.success = true) :
    (WebhookStorage.updateRecord result now w).status = .processed := by
  simp [WebhookStorage.updateRecord, h]

/-- Storing a fresh record and then updating it by its id touches only
the appended record when the generated id is not already taken. -/
theorem store_then_update (s : WebhookStorage) (provider : WebhookProvider)
    (rawData : JSVal) (headers : Option (List (String × String)))
    (now now2 : Nat) (rand : String) (result : WebhookProcessingResult)
    (hfresh : ∀ x ∈ s.webhooks, x.id ≠ "webhook-" ++ toString now ++ "-" ++ rand) :
    (s.storeWebhook provider rawData headers now rand).2.updateWebhook
        ("webhook-" ++ toString now ++ "-" ++ rand) result now2
      = (some (WebhookStorage.updateRecord result now2
            (WebhookStorage.freshRecord provider rawData headers now rand)),
         { s with webhooks := s.webhooks ++
            [WebhookStorage.updateRecord result now2
              (WebhookStorage.freshRecord provider rawData headers now rand)] }) := by
  have hl : ∀ x ∈ s.webhooks,
      (fun (w : WebhookStorageRecord) =>
        decide (w.id = "webhook-" ++ toString now ++ "-" ++ rand)) x = false := by
    intro x hx
    exact decide_eq_false (hfresh x hx)
  have hw : (fun (w : WebhookStorageRecord) =>
      decide (w.id = "webhook-" ++ toString now ++ "-" ++ rand))
      (WebhookStorage.freshRecord provider rawData headers now rand) = true := by
    simp [WebhookStorage.freshRecord]
  unfold WebhookStorage.updateWebhook
  have hwb : (s.storeWebhook provider rawData headers now rand).2.webhooks
      = s.webhooks ++ [WebhookStorage.freshRecord provider rawData headers now rand] := rfl
  rw [hwb, find?_append_of_not hl hw, replaceFirst_append_of_not hl hw]
  rfl

theorem ddProcessStored_ok (s : WebhookStorage) (rawData : JSVal) (now : Nat)
    (rand : String) (ev : WebhookEvent)
    (hp : ddParseWebhookEvent rawData now = .ok ev)
    (hfresh : ∀ x ∈ s.webhooks, x.id ≠ "webhook-" ++ toString now ++ "-" ++ rand) :
    ddProcessStored s rawData now rand
      = (processedResult ev,
         { s with webhooks := s.webhooks ++
            [WebhookStorage.updateRecord (processedResult ev) now
              (WebhookStorage.freshRecord .DOORDASH rawData none now rand)] }) := by
  simp only [ddProcessStored, hp]
  rw [show ((s.storeWebhook .DOORDASH rawData none now rand).1.id)
      = "webhook-" ++ toString now ++ "-" ++ rand from rfl]
  rw [store_then_update s .DOORDASH rawData none now now rand (processedResult ev) hfresh]

theorem uberProcessStored_ok (s : WebhookStorage) (rawData : JSVal) (now : Nat)
    (rand : String) (ev : WebhookEvent)
    (hp : uberParseWebhookEvent rawData now = .ok ev)
    (hfresh : ∀ x ∈ s.webhooks, x.id ≠ "webhook-" ++ toString now ++ "-" ++ rand) :
    uberProcessStored s rawData now rand
      = (processedResult ev,
         { s with webhooks := s.webhooks ++
            [WebhookStorage.updateRecord (processedResult ev) now
              (WebhookStorage.freshRecord .UBER rawData none now rand)] }) := by
  simp only [uberProcessStored, hp]
  rw [show ((s.storeWebhook .UBER rawData none now rand).1.id)
      = "webhook-" ++ toString now ++ "-" ++ rand from rfl]
  rw [store_then_update s .UBER rawData none now now rand (processedResult ev) hfresh]

theorem ddProcessWebhook_state_cases (env : DoorDashProcessorEnv) (s : WebhookStorage)
    (rawData : JSVal) (headers : Option (List (String × String))) (now : Nat)
    (rand : String) :
    (ddProcessWebhook env s rawData headers now rand).2 = s
    ∨ (ddProcessWebhook env s rawData headers now rand).2
        = (ddProcessStored s rawData now rand).2 := by
  unfold ddProcessWebhook
  split
  · split
    · exact Or.inl rfl
    · exact Or.inr rfl
  · exact Or.inr rfl

theorem uberProcessWebhook_state_cases (uenv : UberProcessorEnv) (s : WebhookStorage)
    (rawData : JSVal) (headers : Option (List (String × String))) (now : Nat)
    (rand : String) :
    (uberProcessWebhook uenv s rawData headers now rand).2 = s
    ∨ (uberProcessWebhook uenv s rawData headers now rand).2
        = (uberProcessStored s rawData now rand).2 := by
  unfold uberProcessWebhook
  split
  · split
    · exact Or.inl rfl
    · exact Or.inr rfl
  · exact Or.inr rfl

theorem ddProcessStored_mem_headers (s : WebhookStorage) (rawData : JSVal) (now : Nat)
    (rand : String)
    (hfresh : ∀ x ∈ s.webhooks, x.id ≠ "webhook-" ++ toString now ++ "-" ++ rand) :
    ∀ w ∈ (ddProcessStored s rawData now rand).2.webhooks,
      w ∈ s.webhooks ∨ w.headers = none := by
  cases hp : ddParseWebhookEvent rawData now with
  | error e =>
    intro w hw
    simp only [ddProcessStored, hp] at hw
    rcases List.mem_append.mp hw with h | h
    · exact Or.inl h
    · right
      rw [List.mem_singleton.mp h]
      rfl
  | ok ev =>
    intro w hw
    rw [ddProcessStored_ok s rawData now rand ev hp hfresh] at hw
    rcases List.mem_append.mp hw with h | h
    · exact Or.inl h
    · right
      rw [List.mem_singleton.mp h, updateRecord_headers]
      rfl

theorem uberProcessStored_mem_headers (s : WebhookStorage) (rawData : JSVal) (now : Nat)
    (rand : String)
    (hfresh : ∀ x ∈ s.webhooks, x.id ≠ "webhook-" ++ toString now ++ "-" ++ rand) :
    ∀ w ∈ (uberProcessStored s rawData now rand).2.webhooks,
      w ∈ s.webhooks ∨ w.headers = none := by
  cases hp : uberParseWebhookEvent rawData now with
  | error e =>
    intro w hw
    simp only [uberProcessStored, hp] at hw
    rcases List.mem_append.mp hw with h | h
    · exact Or.inl h
    · right
      rw [List.mem_singleton.mp h]
      rfl
  | ok ev =>
    intro w hw
    rw [uberProcessStored_ok s rawData now rand ev hp hfresh] at hw
    rcases List.mem_append.mp hw with h | h
    · exact Or.inl h
    · right
      rw [List.mem_singleton.mp h, updateRecord_headers]
      rfl

/-- C7 (amended): both processors call `storeWebhook` without passing the
request headers along, so every record a `processWebhook` call adds to
storage has its headers field absent (`undefined`) — the original request
headers are not persisted with the record. -/
theorem C7_request_headers_not_persisted (env : DoorDashProcessorEnv)
    (uenv : UberProcessorEnv) (s : WebhookStorage) (rawData : JSVal)
    (headers : Option (List (String × String))) (now : Nat) (rand : String)
    (hfresh : ∀ x ∈ s.webhooks, x.id ≠ "webhook-" ++ toString now ++ "-" ++ rand) :
    (∀ w ∈ (ddProcessWebhook env s rawData headers now rand).2.webhooks,
        w ∈ s.webhooks ∨ w.headers = none)
    ∧ (∀ w ∈ (uberProcessWebhook uenv s rawData headers now rand).2.webhooks,
        w ∈ s.webhooks ∨ w.headers = none) := by
  constructor
  · rcases ddProcessWebhook_state_cases env s rawData headers now rand with h | h
    · rw [h]
      exact fun w hw => Or.inl hw
    · rw [h]
      exact ddProcessStored_mem_headers s rawData now rand hfresh
  · rcases uberProcessWebhook_state_cases uenv s rawData headers now rand with h | h
    · rw [h]
      exact fun w hw => Or.inl hw
    · rw [h]
      exact uberProcessStored_mem_headers s rawData now rand hfresh

theorem C7_witness :
    (∀ w ∈ (ddProcessWebhook ddEnvDev WebhookStorage.empty .objNil
        (some [("x-doordash-signature", "sig")]) 0 "r").2.webhooks,
      w ∈ WebhookStorage.empty.webhooks ∨ w.headers = none)
    ∧ (∀ w ∈ (uberProcessWebhook uberEnvProd WebhookStorage.empty .objNil
        (some [("x-doordash-signature", "sig")]) 0 "r").2.webhooks,
      w ∈ WebhookStorage.empty.webhooks ∨ w.headers = none) :=
  C7_request_headers_not_persisted ddEnvDev uberEnvProd WebhookStorage.empty .objNil
    (some [("x-doordash-signature", "sig")]) 0 "r" (by simp [WebhookStorage.empty])

/-- The genuine Uber HMAC (under the fixtures) of the serialized payload,
making `uberVerifyWebhook` succeed outside development mode. -/
def uberSigW : String := hmacTest "usec" "[object Object]"

/-- C7 counterexample: an Uber webhook that passes real signature
verification in production mode is stored, but the stored record's
headers field is `undefined` rather than the request headers that were
supplied — so verification could not be re-run from the record. -/
theorem C7_counterexample :
    ((uberProcessWebhook uberEnvProd WebhookStorage.empty
        (JSVal.mkObj [("event_type", .str "x")])
        (some [("x-uber-signature", uberSigW)]) 0 "r").2.getWebhook
      "webhook-0-r").map (fun w => w.headers) = some none
    ∧ ((uberProcessWebhook uberEnvProd WebhookStorage.empty
        (JSVal.mkObj [("event_type", .str "x")])
        (some [("x-uber-signature", uberSigW)]) 0 "r").2.getWebhook
      "webhook-0-r").map (fun w => w.headers)
        ≠ some (some [("x-uber-signature", uberSigW)]) := by decide

/-- C10 (amended): with the headers argument entirely absent and
development mode off, both processors skip signature verification, store
the webhook, and — provided event parsing does not throw — update it to a
`{success:true}` result, ending with a `processed` record appended to
storage. -/
theorem C10_absent_headers_skip_verification (env : DoorDashProcessorEnv)
    (uenv : UberProcessorEnv) (s : WebhookStorage) (rawData : JSVal)
    (now : Nat) (rand : String) (ev ev' : WebhookEvent)
    (hdev : env.developmentMode = false) (hudev : uenv.isDevelopmentMode = false)
    (hfresh : ∀ x ∈ s.webhooks, x.id ≠ "webhook-" ++ toString now ++ "-" ++ rand)
    (hdd : ddParseWebhookEvent rawData now = .ok ev)
    (hu : uberParseWebhookEvent rawData now = .ok ev') :
    ((ddProcessWebhook env s rawData none now rand).1.success = true
      ∧ ∃ w, (ddProcessWebhook env s rawData none now rand).2.webhooks
            = s.webhooks ++ [w] ∧ w.status = .processed)
    ∧ ((uberProcessWebhook uenv s rawData none now rand).1.success = true
      ∧ ∃ w, (uberProcessWebhook uenv s rawData none now rand).2.webhooks
            = s.webhooks ++ [w] ∧ w.status = .processed) := by
  have hdd1 : ddProcessWebhook env s rawData none now rand
      = ddProcessStored s rawData now rand := by
    simp [ddProcessWebhook]
  have hu1 : uberProcessWebhook uenv s rawData none now rand
      = uberProcessStored s rawData now rand := by
    simp [uberProcessWebhook]
  rw [hdd1, hu1, ddProcessStored_ok s rawData now rand ev hdd hfresh,
    uberProcessStored_ok s rawData now rand ev' hu hfresh]
  exact ⟨⟨rfl, ⟨_, rfl, updateRecord_success_status _ _ _ rfl⟩⟩,
    ⟨rfl, ⟨_, rfl, updateRecord_success_status _ _ _ rfl⟩⟩⟩

/-- The event the DoorDash normalizer produces for `{event_type:"x"}` at
clock 0. -/
def ddEvW : WebhookEvent :=
  { id := .str "dd-event-0", provider := .DOORDASH, eventType := .UNKNOWN
    timestamp := .now 0, deliveryId := .str "", externalDeliveryId := some (.str "")
    rawData := JSVal.mkObj [("event_type", .str "x")] }

/-- The event the Uber normalizer produces for `{event_type:"x"}` at
clock 0. -/
def uberEvW : WebhookEvent :=
  { id := .str "uber-event-0", provider := .UBER, eventType := .UNKNOWN
    timestamp := .now 0, deliveryId := .str ""
    rawData := JSVal.mkObj [("event_type", .str "x")] }

theorem C10_witness :
    ((ddProcessWebhook ddEnvProd WebhookStorage.empty
        (JSVal.mkObj [("event_type", .str "x")]) none 0 "r").1.success = true
      ∧ ∃ w, (ddProcessWebhook ddEnvProd WebhookStorage.empty
            (JSVal.mkObj [("event_type", .str "x")]) none 0 "r").2.webhooks
          = WebhookStorage.empty.webhooks ++ [w] ∧ w.status = .processed)
    ∧ ((uberProcessWebhook uberEnvProd WebhookStorage.empty
        (JSVal.mkObj [("event_type", .str "x")]) none 0 "r").1.success = true
      ∧ ∃ w, (uberProcessWebhook uberEnvProd WebhookStorage.empty
            (JSVal.mkObj [("event_type", .str "x")]) none 0 "r").2.webhooks
          = WebhookStorage.empty.webhooks ++ [w] ∧ w.status = .processed) :=
  C10_absent_headers_skip_verification ddEnvProd uberEnvProd WebhookStorage.empty
    (JSVal.mkObj [("event_type", .str "x")]) 0 "r" ddEvW uberEvW
    (by decide) (by decide) (by simp [WebhookStorage.empty]) (by decide) (by decide)

/-- C10 counterexample: for the Uber payload `{kind: 5}` with headers
absent in production mode, verification is skipped and the webhook is
stored, but the result is `{success:false}` (the normalizer throws at
`toLowerCase` on the numeric event type), not `{success:true}` as the
claim states for every raw payload. -/
theorem C10_counterexample :
    (uberProcessWebhook uberEnvProd WebhookStorage.empty
        (JSVal.mkObj [("kind", .num 5)]) none 0 "r").1.success = false
    ∧ (uberProcessWebhook uberEnvProd WebhookStorage.empty
        (JSVal.mkObj [("kind", .num 5)]) none 0 "r").2.webhooks.length = 1 := by decide

/-- `v` has property `k` readable without throwing, with a truthy value. -/
def hasTruthyProp (v : JSVal) (k : String) : Bool :=
  match v.getProp k with
  | .ok x => x.truthy
  | .error _ => false

/-- C8 (amended): both normalizers are deterministic given the clock, and
they are clock-independent — hence pure — exactly when the payload
carries the provider event id and a timestamp field (`event_id` and
`created_at` for DoorDash; `id` and `created` or `event_time` for Uber);
without those, the fallback id and timestamp embed the current time. -/
theorem C8_normalization_deterministic (rawData : JSVal) (t1 t2 : Nat) :
    (hasTruthyProp rawData "event_id" = true → hasTruthyProp rawData "created_at" = true →
      ddParseWebhookEvent rawData t1 = ddParseWebhookEvent rawData t2)
    ∧ (hasTruthyProp rawData "id" = true →
       (hasTruthyProp rawData "created" = true ∨ hasTruthyProp rawData "event_time" = true) →
      uberParseWebhookEvent rawData t1 = uberParseWebhookEvent rawData t2) := by
  constructor
  · intro h1 h2
    cases rawData <;>
      simp [hasTruthyProp, JSVal.getProp, JSVal.lookupField, JSVal.truthy] at h1 h2 <;>
      simp [ddParseWebhookEvent, JSVal.getProp, JSVal.lookupField, JSVal.truthy, jsOr,
        Bind.bind, Except.bind, h1, h2]
  · intro h1 h2
    rcases h2 with h2 | h2 <;>
      cases rawData <;>
      simp [hasTruthyProp, JSVal.getProp, JSVal.lookupField, JSVal.truthy] at h1 h2 <;>
      simp [uberParseWebhookEvent, JSVal.getProp, JSVal.lookupField, JSVal.truthy, jsOr,
        Bind.bind, Except.bind, h1, h2]

/-- A payload carrying explicit event ids and timestamps for both
providers' field conventions. -/
def stampedPayloadW : JSVal :=
  JSVal.mkObj [("event_id", .str "e1"), ("created_at", .str "2024-01-01"),
    ("id", .str "u1"), ("created", .str "2024-01-01"), ("event_type", .str "x")]

theorem C8_witness :
    ddParseWebhookEvent stampedPayloadW 0 = ddParseWebhookEvent stampedPayloadW 1
    ∧ uberParseWebhookEvent stampedPayloadW 0 = uberParseWebhookEvent stampedPayloadW 1 :=
  ⟨(C8_normalization_deterministic stampedPayloadW 0 1).1 (by decide) (by decide),
   (C8_normalization_deterministic stampedPayloadW 0 1).2 (by decide) (Or.inl (by decide))⟩

/-- C8 counterexample: on the empty-object payload the DoorDash
normalizer is not pure — parsed at clock 0 and at clock 1 it produces
different events (the fallback id embeds `Date.now()` and the fallback
timestamp is `new Date()`), refuting determinism for all raw payloads. -/
theorem C8_counterexample :
    ddParseWebhookEvent JSVal.objNil 0 ≠ ddParseWebhookEvent JSVal.objNil 1 := by decide

/-- C9: in every state reachable through the storage mutators, a pending
record has strictly fewer than 3 processing attempts (the retry bound),
and `getPendingWebhooks 3` returns exactly the pending records with fewer
than 3 attempts — which, by the bound, are exactly the pending records. -/
theorem C9_retry_bound (s : WebhookStorage) (h : Reachable s) :
    (∀ w ∈ s.webhooks, w.status = .pending → w.processingAttempts < 3)
    ∧ s.getPendingWebhooks 3
        = s.webhooks.filter (fun w => w.status = .pending ∧ w.processingAttempts < 3)
    ∧ s.getPendingWebhooks 3 = s.webhooks.filter (fun w => w.status = .pending) := by
  have hinv : ∀ w ∈ s.webhooks, w.status = .pending → w.processingAttempts < 3 := by
    induction h with
    | empty =>
      intro w hw
      simp [WebhookStorage.empty] at hw
    | store s provider rawData headers now rand _ ih =>
      intro w hw hp
      have hw' : w ∈ s.webhooks
          ++ [WebhookStorage.freshRecord provider rawData headers now rand] := hw
      rcases List.mem_append.mp hw' with hmem | hmem
      · exact ih w hmem hp
      · rw [List.mem_singleton.mp hmem]
        show (0 : Nat) < 3
        decide
    | update s id result now _ ih =>
      intro w hw hp
      have hw' := hw
      unfold WebhookStorage.updateWebhook at hw'
      cases hf : s.webhooks.find? (fun x => x.id = id) with
      | none =>
        rw [hf] at hw'
        exact ih w hw' hp
      | some w0 =>
        rw [hf] at hw'
        rcases mem_replaceFirst hw' with hmem | ⟨w1, hw1, _, hx⟩
        · exact ih w hmem hp
        · rw [hx] at hp ⊢
          exact updateRecord_pending_lt result now w1 hp
    | delete s id _ ih =>
      intro w hw hp
      have hw' := hw
      unfold WebhookStorage.deleteWebhook at hw'
      split at hw'
      · exact ih w (mem_removeFirst hw') hp
      · exact ih w hw' hp
    | clear s _ ih =>
      intro w hw
      simp [WebhookStorage.clearWebhooks] at hw
  refine ⟨hinv, rfl, ?_⟩
  unfold WebhookStorage.getPendingWebhooks
  apply List.filter_congr
  intro w hw
  by_cases hp : w.status = .pending
  · simp [hp, hinv w hw hp]
  · simp [hp]

theorem C9_witness :
    (∀ w ∈ (WebhookStorage.empty.storeWebhook .DOORDASH .objNil none 0 "r").2.webhooks,
      w.status = .pending → w.processingAttempts < 3)
    ∧ (WebhookStorage.empty.storeWebhook .DOORDASH .objNil none 0 "r").2.getPendingWebhooks 3
        = (WebhookStorage.empty.storeWebhook .DOORDASH .objNil none 0 "r").2.webhooks.filter
            (fun w => w.status = .pending ∧ w.processingAttempts < 3)
    ∧ (WebhookStorage.empty.storeWebhook .DOORDASH .objNil none 0 "r").2.getPendingWebhooks 3
        = (WebhookStorage.empty.storeWebhook .DOORDASH .objNil none 0 "r").2.webhooks.filter
            (fun w => w.status = .pending) :=
  C9_retry_bound (WebhookStorage.empty.storeWebhook .DOORDASH .objNil none 0 "r").2
    (Reachable.store WebhookStorage.empty .DOORDASH .objNil none 0 "r" Reachable.empty)

end WebhookRepo
